import Mathlib

/-!
Verification of the stashd-aibot repository: a shallow embedding of its
diff/decoration subsystem (components/diffview.tsx, lib/editor/functions),
its message-migration script, its Prisma-backed query module and its
document-versions GET route, together with theorems settling the frozen
claims about them.
-/

/-! ## Diff marks (components/diffview.tsx, diffSchema / diffMark) -/

/-- Modelled from the spec: the DiffType enumeration of lib/editor/diff,
which is referenced but not included in the sources; the spec speaks of
rendering insertions and deletions as annotated marks, so the enumeration
has distinct members for unchanged, inserted and deleted content. -/
inductive DiffType where
  | Unchanged : DiffType
  | Deleted : DiffType
  | Inserted : DiffType
deriving DecidableEq, Repr

/-- Value of the diffMark attribute `type`: either one of the DiffType
members, or a plain string (the schema declares the default as the empty
string). Strict equality in JS never identifies a string with an
enumeration member, which the two constructors keep apart. -/
inductive MarkTypeAttr where
  | str : String → MarkTypeAttr
  | diff : DiffType → MarkTypeAttr
deriving DecidableEq, Repr

/-- Attribute set of the diffMark mark (its only attribute is `type`,
whose declared default is the empty string). -/
structure DiffMarkAttrs where
  type : MarkTypeAttr := .str ""
deriving DecidableEq, Repr

/-- A DOM output spec of the shape produced by diffMark.toDOM: a tag name,
a list of HTML attributes and the content hole. -/
structure DOMOutputSpec where
  tag : String
  htmlAttrs : List (String × String)
  hole : Nat
deriving DecidableEq, Repr

/-- The toDOM function of the diffMark mark spec in diffSchema
(components/diffview.tsx): branches on the mark's `type` attribute. -/
def diffMarkToDOM (mark : DiffMarkAttrs) : DOMOutputSpec :=
  let type := mark.type
  if type = .diff .Inserted then
    ⟨"span", [("class", "diff-inserted"), ("data-diff", "inserted")], 0⟩
  else if type = .diff .Deleted then
    ⟨"span", [("class", "diff-deleted"), ("data-diff", "deleted")], 0⟩
  else
    ⟨"span", [], 0⟩

/-! ## ProseMirror documents and their JSON serialisation -/

/-- A JSON value, the target of Node.toJSON. -/
inductive Json where
  | null : Json
  | str : String → Json
  | num : Int → Json
  | arr : List Json → Json
  | obj : List (String × Json) → Json

/-- A ProseMirror-style document node: either a text leaf carrying its
marks, or an interior node with a type name and child content. -/
inductive PMNode where
  | text : String → List String → PMNode
  | node : String → List PMNode → PMNode

mutual

/-- Serialisation of a document node to JSON, in the shape ProseMirror's
Node.toJSON produces (a `type` field plus `text`/`marks` or `content`). -/
def PMNode.toJSON : PMNode → Json
  | .text s marks =>
      .obj [("type", .str "text"), ("text", .str s),
            ("marks", .arr (marks.map Json.str))]
  | .node ty content =>
      .obj [("type", .str ty), ("content", .arr (PMNode.toJSONList content))]

/-- Serialisation of a list of document nodes to JSON values. -/
def PMNode.toJSONList : List PMNode → List Json
  | [] => []
  | n :: rest => PMNode.toJSON n :: PMNode.toJSONList rest

end

/-- The diff schema of components/diffview.tsx, as far as the claims see
it: the basic schema extended with the diffMark mark spec whose toDOM is
diffMarkToDOM. -/
structure SchemaModel where
  diffMarkToDOMFn : DiffMarkAttrs → DOMOutputSpec

/-- diffSchema from components/diffview.tsx. -/
def diffSchema : SchemaModel := ⟨diffMarkToDOM⟩

/-- computeDiff from components/diffview.tsx, parametrised by the external
diffEditor function of lib/editor/diff (not part of the sources): it hands
diffEditor the fixed diffSchema and the JSON serialisations of the two
documents. -/
def computeDiff (diffEditorFn : SchemaModel → Json → Json → PMNode)
    (oldDoc newDoc : PMNode) : PMNode :=
  diffEditorFn diffSchema oldDoc.toJSON newDoc.toJSON

/-! ## Suggestion decorations (lib/editor/functions, createDecorations) -/

/-- An AI suggestion as the editor sees it: an id and the text range it is
anchored to. -/
structure UISuggestion where
  id : String
  selectionStart : Nat
  selectionEnd : Nat
deriving DecidableEq, Repr

/-- The spec object attached to a decoration (suggestionId and kind). -/
structure DecoSpec where
  suggestionId : String
  kind : String
deriving DecidableEq, Repr

/-- A ProseMirror decoration as createDecorations builds them: an inline
decoration over a range with HTML attributes and a spec, or a widget
decoration anchored at a position with a spec. -/
inductive Decoration where
  | inline : Nat → Nat → List (String × String) → DecoSpec → Decoration
  | widget : Nat → DecoSpec → Decoration
deriving DecidableEq, Repr

/-- A decoration set: the document it was created against together with
the decorations handed to DecorationSet.create. -/
structure DecorationSet where
  doc : PMNode
  decorations : List Decoration

/-- Editor view state, as far as createDecorations reads it. -/
structure EditorViewModel where
  doc : PMNode

/-- createDecorations from lib/editor/functions: for each suggestion it
pushes an inline decoration over [selectionStart, selectionEnd) with class
suggestion-highlight, and a widget decoration at selectionStart, both
carrying the suggestion's id, then wraps them with the view's document. -/
def createDecorations (suggestions : List UISuggestion)
    (view : EditorViewModel) : DecorationSet :=
  let decorations := suggestions.foldl
    (fun acc suggestion =>
      acc ++ [Decoration.inline suggestion.selectionStart
                suggestion.selectionEnd
                [("class", "suggestion-highlight")]
                ⟨suggestion.id, "highlight"⟩,
              Decoration.widget suggestion.selectionStart
                ⟨suggestion.id, "widget"⟩])
    []
  ⟨view.doc, decorations⟩

/-! ## Message migration script (scripts/migrate messages) -/

/-- A part of a deprecated message's content array; the script only reads
its `type` field. -/
structure ContentPart where
  type : String
deriving DecidableEq, Repr

/-- A row of the deprecated Message table as the migration script reads
it (createdAt modelled as the millisecond timestamp getTime returns). -/
structure MessageDeprecated where
  id : String
  chatId : String
  role : String
  content : List ContentPart
  createdAt : Nat
deriving DecidableEq, Repr

/-- getMessageRank from the migration script: assistant messages with a
tool-call part rank 0, tool messages with a tool-result part rank 1,
remaining assistant messages rank 2, everything else rank 3. -/
def getMessageRank (message : MessageDeprecated) : Nat :=
  if message.role == "assistant" &&
      message.content.any (fun contentPart => contentPart.type == "tool-call") then
    0
  else if message.role == "tool" &&
      message.content.any (fun contentPart => contentPart.type == "tool-result") then
    1
  else if message.role == "assistant" then
    2
  else
    3

/-- The sort comparator of the migration script turned into a boolean
ordering: the comparator returns the createdAt difference when nonzero and
the rank difference otherwise, so a sorts no later than b exactly when
a.createdAt < b.createdAt, or the timestamps tie and rank a ≤ rank b. -/
def msgLE (a b : MessageDeprecated) : Bool :=
  if a.createdAt == b.createdAt then
    getMessageRank a ≤ getMessageRank b
  else
    a.createdAt < b.createdAt

/-- The `.sort(...)` call of the migration script on a chat's deprecated
messages (JS Array.prototype.sort is a stable sort driven by the
comparator, which mergeSort models). -/
def sortMessages (messages : List MessageDeprecated) : List MessageDeprecated :=
  messages.mergeSort msgLE

/-- The section-building loop of migrateMessages: it walks the sorted
messages keeping a current section; on a user message, if the current
section is nonempty it is emitted and a fresh section starts; every
message is appended to the current section; a nonempty trailing section
is emitted at the end. -/
def sectionsAux : List MessageDeprecated → List MessageDeprecated →
    List (List MessageDeprecated)
  | cur, [] => if cur.isEmpty then [] else [cur]
  | cur, m :: rest =>
      if m.role == "user" && !cur.isEmpty then
        cur :: sectionsAux [m] rest
      else
        sectionsAux (cur ++ [m]) rest

/-- buildSections: the whole sectioning pass of migrateMessages, started
with an empty current section. -/
def buildSections (messages : List MessageDeprecated) :
    List (List MessageDeprecated) :=
  sectionsAux [] messages

/-- The per-chat message pipeline of migrateMessages: sort the chat's
deprecated messages with the comparator, then split them into sections. -/
def migrateChatSections (messages : List MessageDeprecated) :
    List (List MessageDeprecated) :=
  buildSections (sortMessages messages)

/-! ## Database model (prisma/schema.prisma rows, lib/db/queries) -/

/-- An error thrown by the underlying database client (Prisma): either a
generic failure or the record-not-found error that update/delete raise
when no row matches their unique where clause. -/
inductive DbError where
  | generic : String → DbError
  | recordNotFound : DbError
deriving DecidableEq, Repr

/-- A ChatSDKError as lib/errors constructs them: an error code string
and a cause message. -/
structure ChatSDKError where
  code : String
  cause : String
deriving DecidableEq, Repr

/-- What a query function can throw to its caller: either a raw database
error that escaped, or a ChatSDKError. -/
inductive QueryError where
  | raw : DbError → QueryError
  | sdk : ChatSDKError → QueryError
deriving DecidableEq, Repr

/-- JS try/catch semantics: run the body; if it throws anything, run the
handler on the thrown error. -/
def tryCatchAll {α : Type} (body : Except QueryError α)
    (handler : QueryError → Except QueryError α) : Except QueryError α :=
  match body with
  | .ok a => .ok a
  | .error e => handler e

/-- A single awaited Prisma operation: the oracle `err` says whether the
client throws on this call; otherwise the operation yields `result`. -/
def dbOp {α : Type} (err : Option DbError) (result : α) :
    Except QueryError α :=
  match err with
  | some e => .error (.raw e)
  | none => .ok result

/-- A row of the User table (fields the query module touches). -/
structure UserRow where
  id : String
  username : String
  email : String
  password_hash : String
deriving DecidableEq, Repr

/-- A row of the Chat table. -/
structure ChatRow where
  id : String
  userId : String
  title : String
  visibility : String
  createdAt : Nat
deriving DecidableEq, Repr

/-- A row of the Message table (fields the query module touches). -/
structure MessageRow where
  id : String
  chatId : String
  role : String
  createdAt : Nat
deriving DecidableEq, Repr

/-- A row of the Vote table; its primary key is the composite
(chatId, messageId, userId). -/
structure VoteRow where
  chatId : String
  messageId : String
  userId : String
  isUpvoted : Bool
deriving DecidableEq, Repr

/-- A row of the Document table. -/
structure DocumentRow where
  id : String
  title : String
  kind : String
  content : String
  userId : String
  createdAt : Nat
deriving DecidableEq, Repr

/-- A row of the Suggestion table (fields the query module touches). -/
structure SuggestionRow where
  id : String
  documentId : String
  createdAt : Nat
deriving DecidableEq, Repr

/-- A row of the Stream table. -/
structure StreamRow where
  id : String
  chatId : String
  createdAt : Nat
deriving DecidableEq, Repr

/-- The database state: one list of rows per table. -/
structure DB where
  users : List UserRow
  chats : List ChatRow
  messages : List MessageRow
  votes : List VoteRow
  documents : List DocumentRow
  suggestions : List SuggestionRow
  streams : List StreamRow
deriving DecidableEq, Repr

/-! ## The query module (lib/db/queries) -/

/-- getUser: find all users with the given email. -/
def getUser (db : DB) (email : String) (err : Option DbError) :
    Except QueryError (List UserRow) :=
  tryCatchAll (dbOp err (db.users.filter (fun u => u.email == email)))
    (fun _ => .error (.sdk ⟨"bad_request:database", "Failed to get user by email"⟩))

/-- createUser: insert a user row (id, generated username and hashed
password are computed before the try block and appear here as inputs). -/
def createUser (db : DB) (userId username email hashedPassword : String)
    (err : Option DbError) : Except QueryError (DB × UserRow) :=
  tryCatchAll
    (dbOp err
      ({ db with users := db.users ++ [⟨userId, username, email, hashedPassword⟩] },
        (⟨userId, username, email, hashedPassword⟩ : UserRow)))
    (fun _ => .error (.sdk ⟨"bad_request:database", "Failed to create user"⟩))

/-- createGuestUser: insert a generated guest user row and return it as a
one-element list. -/
def createGuestUser (db : DB) (userId username email hashedPassword : String)
    (err : Option DbError) : Except QueryError (DB × List UserRow) :=
  tryCatchAll
    (dbOp err
      ({ db with users := db.users ++ [⟨userId, username, email, hashedPassword⟩] },
        [(⟨userId, username, email, hashedPassword⟩ : UserRow)]))
    (fun _ => .error (.sdk ⟨"bad_request:database", "Failed to create guest user"⟩))

/-- saveChat: insert a chat row with the current time as createdAt. -/
def saveChat (db : DB) (id userId title visibility : String) (now : Nat)
    (err : Option DbError) : Except QueryError (DB × ChatRow) :=
  tryCatchAll
    (dbOp err
      ({ db with chats := db.chats ++ [⟨id, userId, title, visibility, now⟩] },
        (⟨id, userId, title, visibility, now⟩ : ChatRow)))
    (fun _ => .error (.sdk ⟨"bad_request:database", "Failed to save chat"⟩))

/-- deleteChatById: delete the chat's votes, messages and streams, then
delete the chat itself (prisma.chat.delete throws record-not-found when no
chat has the id) and return the deleted chat. -/
def deleteChatById (db : DB) (id : String)
    (err1 err2 err3 err4 : Option DbError) : Except QueryError (DB × ChatRow) :=
  tryCatchAll
    (do
      let db1 ← dbOp err1
        { db with votes := db.votes.filter (fun v => !(v.chatId == id)) }
      let db2 ← dbOp err2
        { db1 with messages := db1.messages.filter (fun m => !(m.chatId == id)) }
      let db3 ← dbOp err3
        { db2 with streams := db2.streams.filter (fun s => !(s.chatId == id)) }
      match db3.chats.find? (fun c => c.id == id) with
      | none => Except.error (.raw .recordNotFound)
      | some chat =>
          dbOp err4
            ({ db3 with chats := db3.chats.filter (fun c => !(c.id == id)) }, chat))
    (fun _ => .error (.sdk ⟨"bad_request:database", "Failed to delete chat by id"⟩))

/-- Descending createdAt order on chats (orderBy createdAt desc). -/
def chatDescLE (a b : ChatRow) : Bool :=
  b.createdAt ≤ a.createdAt

/-- The inner `query` closure of getChatsByUserId: the user's chats
matching the extra where condition, newest first, truncated to the
extended limit. -/
def queryChats (db : DB) (id : String) (extendedLimit : Nat)
    (cond : ChatRow → Bool) : List ChatRow :=
  (((db.chats.filter (fun c => c.userId == id && cond c)).mergeSort
      chatDescLE).take extendedLimit)

/-- The value getChatsByUserId resolves with. -/
structure ChatsPage where
  chats : List ChatRow
  hasMore : Bool
deriving DecidableEq, Repr

/-- getChatsByUserId: fetch up to limit+1 chats (filtered by the cursor
chat's createdAt when startingAfter/endingBefore is given, throwing a
not-found ChatSDKError inside the try block when the cursor chat does not
exist), report hasMore when more than limit came back, and drop the extra
chat in that case. -/
def getChatsByUserId (db : DB) (id : String) (limit : Nat)
    (startingAfter endingBefore : Option String)
    (errFind errQuery : Option DbError) : Except QueryError ChatsPage :=
  tryCatchAll
    (do
      let extendedLimit := limit + 1
      let filteredChats ←
        match startingAfter with
        | some sa => do
            let selectedChat ← dbOp errFind (db.chats.find? (fun c => c.id == sa))
            match selectedChat with
            | none =>
                Except.error (.sdk ⟨"not_found:database",
                  "Chat with id " ++ sa ++ " not found"⟩)
            | some selected =>
                dbOp errQuery
                  (queryChats db id extendedLimit
                    (fun c => selected.createdAt < c.createdAt))
        | none =>
          match endingBefore with
          | some eb => do
              let selectedChat ← dbOp errFind (db.chats.find? (fun c => c.id == eb))
              match selectedChat with
              | none =>
                  Except.error (.sdk ⟨"not_found:database",
                    "Chat with id " ++ eb ++ " not found"⟩)
              | some selected =>
                  dbOp errQuery
                    (queryChats db id extendedLimit
                      (fun c => c.createdAt < selected.createdAt))
          | none => dbOp errQuery (queryChats db id extendedLimit (fun _ => true))
      let hasMore := limit < filteredChats.length
      Except.ok
        ⟨if hasMore then filteredChats.take limit else filteredChats, hasMore⟩)
    (fun _ => .error (.sdk ⟨"bad_request:database", "Failed to get chats by user id"⟩))

/-- getChatById: first chat with the given id. -/
def getChatById (db : DB) (id : String) (err : Option DbError) :
    Except QueryError (Option ChatRow) :=
  tryCatchAll (dbOp err (db.chats.find? (fun c => c.id == id)))
    (fun _ => .error (.sdk ⟨"bad_request:database", "Failed to get chat by id"⟩))

/-- saveMessages: bulk-insert the given message rows. -/
def saveMessages (db : DB) (msgs : List MessageRow) (err : Option DbError) :
    Except QueryError (DB × Nat) :=
  tryCatchAll (dbOp err ({ db with messages := db.messages ++ msgs }, msgs.length))
    (fun _ => .error (.sdk ⟨"bad_request:database", "Failed to save messages"⟩))

/-- Ascending createdAt order on messages (orderBy createdAt asc). -/
def messageAscLE (a b : MessageRow) : Bool :=
  a.createdAt ≤ b.createdAt

/-- getMessagesByChatId: the chat's messages, oldest first. -/
def getMessagesByChatId (db : DB) (id : String) (err : Option DbError) :
    Except QueryError (List MessageRow) :=
  tryCatchAll
    (dbOp err ((db.messages.filter (fun m => m.chatId == id)).mergeSort messageAscLE))
    (fun _ => .error (.sdk ⟨"bad_request:database", "Failed to get messages by chat id"⟩))

/-- voteMessage: look for an existing vote by the composite key; update
its isUpvoted when found (prisma.vote.update on the unique composite key),
otherwise insert a fresh vote row. -/
def voteMessage (db : DB) (chatId messageId userId ty : String)
    (errFind errWrite : Option DbError) : Except QueryError DB :=
  tryCatchAll
    (do
      let existingVote ← dbOp errFind
        (db.votes.find? (fun v =>
          v.chatId == chatId && v.messageId == messageId && v.userId == userId))
      match existingVote with
      | some _ =>
          dbOp errWrite
            { db with votes := db.votes.map (fun v =>
                if v.chatId == chatId && v.messageId == messageId &&
                    v.userId == userId then
                  { v with isUpvoted := ty == "up" }
                else v) }
      | none =>
          dbOp errWrite
            { db with votes := db.votes ++ [⟨chatId, messageId, userId, ty == "up"⟩] })
    (fun _ => .error (.sdk ⟨"bad_request:database", "Failed to vote message"⟩))

/-- getVotesByChatId: all votes of the chat. -/
def getVotesByChatId (db : DB) (id : String) (err : Option DbError) :
    Except QueryError (List VoteRow) :=
  tryCatchAll (dbOp err (db.votes.filter (fun v => v.chatId == id)))
    (fun _ => .error (.sdk ⟨"bad_request:database", "Failed to get votes by chat id"⟩))

/-- saveDocument: insert a document row and return it as a one-element
list. -/
def saveDocument (db : DB) (id title kind content userId : String) (now : Nat)
    (err : Option DbError) : Except QueryError (DB × List DocumentRow) :=
  tryCatchAll
    (dbOp err
      ({ db with documents := db.documents ++ [⟨id, title, kind, content, userId, now⟩] },
        [(⟨id, title, kind, content, userId, now⟩ : DocumentRow)]))
    (fun _ => .error (.sdk ⟨"bad_request:database", "Failed to save document"⟩))

/-- Ascending createdAt order on documents. -/
def documentAscLE (a b : DocumentRow) : Bool :=
  a.createdAt ≤ b.createdAt

/-- Descending createdAt order on documents. -/
def documentDescLE (a b : DocumentRow) : Bool :=
  b.createdAt ≤ a.createdAt

/-- getDocumentsById: all versions stored under the id, oldest first. -/
def getDocumentsById (db : DB) (id : String) (err : Option DbError) :
    Except QueryError (List DocumentRow) :=
  tryCatchAll
    (dbOp err ((db.documents.filter (fun d => d.id == id)).mergeSort documentAscLE))
    (fun _ => .error (.sdk ⟨"bad_request:database", "Failed to get documents by id"⟩))

/-- Pure body of getDocumentById: the newest document with the id. -/
def findDocumentById (db : DB) (id : String) : Option DocumentRow :=
  ((db.documents.filter (fun d => d.id == id)).mergeSort documentDescLE).head?

/-- getDocumentById: first document with the id, newest first. -/
def getDocumentById (db : DB) (id : String) (err : Option DbError) :
    Except QueryError (Option DocumentRow) :=
  tryCatchAll (dbOp err (findDocumentById db id))
    (fun _ => .error (.sdk ⟨"bad_request:database", "Failed to get document by id"⟩))

/-- deleteDocumentsByIdAfterTimestamp: delete the document's suggestions
newer than the timestamp, collect the documents newer than the timestamp,
delete them, and return the collected rows. -/
def deleteDocumentsByIdAfterTimestamp (db : DB) (id : String) (timestamp : Nat)
    (err1 err2 err3 : Option DbError) :
    Except QueryError (DB × List DocumentRow) :=
  tryCatchAll
    (do
      let db1 ← dbOp err1
        { db with suggestions := db.suggestions.filter (fun s =>
            !(s.documentId == id && timestamp < s.createdAt)) }
      let deletedDocs ← dbOp err2
        (db1.documents.filter (fun d => d.id == id && timestamp < d.createdAt))
      let db2 ← dbOp err3
        { db1 with documents := db1.documents.filter (fun d =>
            !(d.id == id && timestamp < d.createdAt)) }
      Except.ok (db2, deletedDocs))
    (fun _ => .error (.sdk ⟨"bad_request:database",
      "Failed to delete documents by id after timestamp"⟩))

/-- saveSuggestions: bulk-insert the given suggestion rows. -/
def saveSuggestions (db : DB) (suggs : List SuggestionRow)
    (err : Option DbError) : Except QueryError (DB × Nat) :=
  tryCatchAll
    (dbOp err ({ db with suggestions := db.suggestions ++ suggs }, suggs.length))
    (fun _ => .error (.sdk ⟨"bad_request:database", "Failed to save suggestions"⟩))

/-- getSuggestionsByDocumentId: all suggestions of the document. -/
def getSuggestionsByDocumentId (db : DB) (documentId : String)
    (err : Option DbError) : Except QueryError (List SuggestionRow) :=
  tryCatchAll
    (dbOp err (db.suggestions.filter (fun s => s.documentId == documentId)))
    (fun _ => .error (.sdk ⟨"bad_request:database",
      "Failed to get suggestions by document id"⟩))

/-- getMessageById: first message with the id. -/
def getMessageById (db : DB) (id : String) (err : Option DbError) :
    Except QueryError (Option MessageRow) :=
  tryCatchAll (dbOp err (db.messages.find? (fun m => m.id == id)))
    (fun _ => .error (.sdk ⟨"bad_request:database", "Failed to get message by id"⟩))

/-- deleteMessagesByChatIdAfterTimestamp: collect the chat's messages with
createdAt at or after the timestamp (Prisma gte); when any exist, delete
the chat's votes referencing them, then delete them, returning the
deletion count; when none exist, nothing happens and the function resolves
with undefined. -/
def deleteMessagesByChatIdAfterTimestamp (db : DB) (chatId : String)
    (timestamp : Nat) (err1 err2 err3 : Option DbError) :
    Except QueryError (DB × Option Nat) :=
  tryCatchAll
    (do
      let messagesToDelete ← dbOp err1
        (db.messages.filter (fun m => m.chatId == chatId && timestamp ≤ m.createdAt))
      let messageIds := messagesToDelete.map (fun m => m.id)
      if 0 < messageIds.length then do
        let db1 ← dbOp err2
          { db with votes := db.votes.filter (fun v =>
              !(v.chatId == chatId && messageIds.contains v.messageId)) }
        let deletedCount :=
          (db1.messages.filter (fun m =>
            m.chatId == chatId && messageIds.contains m.id)).length
        let db2 ← dbOp err3
          { db1 with messages := db1.messages.filter (fun m =>
              !(m.chatId == chatId && messageIds.contains m.id)) }
        Except.ok (db2, some deletedCount)
      else
        Except.ok (db, none))
    (fun _ => .error (.sdk ⟨"bad_request:database",
      "Failed to delete messages by chat id after timestamp"⟩))

/-- updateChatVisiblityById: update the chat's visibility
(prisma.chat.update throws record-not-found when no chat has the id). -/
def updateChatVisiblityById (db : DB) (chatId visibility : String)
    (err : Option DbError) : Except QueryError DB :=
  tryCatchAll
    (match db.chats.find? (fun c => c.id == chatId) with
      | none => Except.error (.raw .recordNotFound)
      | some _ =>
          dbOp err
            { db with chats := db.chats.map (fun c =>
                if c.id == chatId then { c with visibility := visibility } else c) })
    (fun _ => .error (.sdk ⟨"bad_request:database",
      "Failed to update chat visibility by id"⟩))

/-- getMessageCountByUserId: count the user-role messages of the user's
chats created in the trailing window of differenceInHours hours. -/
def getMessageCountByUserId (db : DB) (id : String)
    (differenceInHours : Nat) (now : Nat) (err : Option DbError) :
    Except QueryError Nat :=
  tryCatchAll
    (dbOp err
      ((db.messages.filter (fun m =>
        (db.chats.any (fun c => c.id == m.chatId && c.userId == id)) &&
        (now - differenceInHours * 60 * 60 * 1000) ≤ m.createdAt &&
        m.role == "user")).length))
    (fun _ => .error (.sdk ⟨"bad_request:database",
      "Failed to get message count by user id"⟩))

/-- createStreamId: insert a stream row with the current time. -/
def createStreamId (db : DB) (streamId chatId : String) (now : Nat)
    (err : Option DbError) : Except QueryError DB :=
  tryCatchAll
    (dbOp err { db with streams := db.streams ++ [⟨streamId, chatId, now⟩] })
    (fun _ => .error (.sdk ⟨"bad_request:database", "Failed to create stream id"⟩))

/-- Ascending createdAt order on streams. -/
def streamAscLE (a b : StreamRow) : Bool :=
  a.createdAt ≤ b.createdAt

/-- getStreamIdsByChatId: ids of the chat's streams, oldest first. -/
def getStreamIdsByChatId (db : DB) (chatId : String) (err : Option DbError) :
    Except QueryError (List String) :=
  tryCatchAll
    (dbOp err
      (((db.streams.filter (fun s => s.chatId == chatId)).mergeSort
        streamAscLE).map (fun s => s.id)))
    (fun _ => .error (.sdk ⟨"bad_request:database",
      "Failed to get stream ids by chat id"⟩))

/-! ## Document-versions GET route (app/api document versions) -/

/-- A row of the DocumentVersion table as the route reads it; contentRich
is modelled by its optional content field, title may be empty (falsy). -/
structure VersionRow where
  documentId : String
  title : String
  contentRichContent : Option String
  userId : String
  createdAt : Nat
  updatedAt : Nat
deriving DecidableEq, Repr

/-- Modelled from the spec: getDocumentVersions of lib/db/queries, which
the route calls but which is not included in the sources; per the route's
comments it returns the stored versions of the given document. -/
def getDocumentVersions (versions : List VersionRow) (documentId : String) :
    List VersionRow :=
  versions.filter (fun v => v.documentId == documentId)

/-- A stored version projected to document shape by the route: id from the
version's documentId, title falling back to the current document's when
falsy, content from contentRich, kind from the current document. -/
structure ProjectedVersion where
  id : String
  title : String
  content : String
  kind : String
  userId : String
  createdAt : Nat
  updatedAt : Nat
deriving DecidableEq, Repr

/-- The route's projection of a stored version against the current
document. -/
def projectVersion (document : DocumentRow) (v : VersionRow) :
    ProjectedVersion :=
  ⟨v.documentId,
    if v.title == "" then document.title else v.title,
    v.contentRichContent.getD "",
    document.kind,
    v.userId,
    v.createdAt,
    v.updatedAt⟩

/-- An element of the JSON array the route responds with: either a
projected stored version or the current document itself. -/
inductive VersionsEntry where
  | version : ProjectedVersion → VersionsEntry
  | currentDoc : DocumentRow → VersionsEntry
deriving DecidableEq, Repr

/-- The route's response: a ChatSDKError response identified by its code,
or a JSON body with a status. -/
inductive RouteResponse where
  | errorResponse : String → RouteResponse
  | json : List VersionsEntry → Nat → RouteResponse
deriving DecidableEq, Repr

/-- The GET handler of the document-versions route: require the
documentId parameter, then an authenticated session, then an existing
document, then ownership; on success respond 200 with the projected
stored versions followed by the current document. -/
def handleGetDocumentVersions (documentId? : Option String)
    (sessionUserId? : Option String) (db : DB)
    (versions : List VersionRow) : RouteResponse :=
  match documentId? with
  | none => .errorResponse "bad_request:api"
  | some documentId =>
    match sessionUserId? with
    | none => .errorResponse "unauthorized:document"
    | some sessionUserId =>
      match findDocumentById db documentId with
      | none => .errorResponse "not_found:document"
      | some document =>
        if document.userId != sessionUserId then
          .errorResponse "forbidden:document"
        else
          .json
            ((getDocumentVersions versions documentId).map
              (fun v => .version (projectVersion document v)) ++
              [.currentDoc document])
            200

/-- The list of decorations createDecorations accumulates, written as a
direct recursion: one inline and one widget decoration per suggestion, in
input order (proof-layer companion of the foldl in createDecorations). -/
def suggestionDecorations : List UISuggestion → List Decoration
  | [] => []
  | s :: rest =>
      Decoration.inline s.selectionStart s.selectionEnd
          [("class", "suggestion-highlight")] ⟨s.id, "highlight"⟩ ::
        Decoration.widget s.selectionStart ⟨s.id, "widget"⟩ ::
        suggestionDecorations rest

/-! ## Theorems -/

theorem createDecorations_foldl_eq (suggestions : List UISuggestion)
    (acc : List Decoration) :
    suggestions.foldl
      (fun acc suggestion =>
        acc ++ [Decoration.inline suggestion.selectionStart
                  suggestion.selectionEnd
                  [("class", "suggestion-highlight")]
                  ⟨suggestion.id, "highlight"⟩,
                Decoration.widget suggestion.selectionStart
                  ⟨suggestion.id, "widget"⟩])
      acc = acc ++ suggestionDecorations suggestions := by
  induction suggestions generalizing acc with
  | nil => simp [suggestionDecorations]
  | cons s rest ih =>
      simp only [List.foldl_cons, suggestionDecorations, ih, List.append_assoc]
      rfl

theorem suggestionDecorations_length (suggestions : List UISuggestion) :
    (suggestionDecorations suggestions).length = 2 * suggestions.length := by
  induction suggestions with
  | nil => rfl
  | cons s rest ih =>
      simp only [suggestionDecorations, List.length_cons, ih]
      omega

theorem suggestionDecorations_getElem (suggestions : List UISuggestion)
    (i : Nat) (h : i < suggestions.length) :
    (suggestionDecorations suggestions)[2 * i]? =
      some (Decoration.inline (suggestions.get ⟨i, h⟩).selectionStart
        (suggestions.get ⟨i, h⟩).selectionEnd
        [("class", "suggestion-highlight")]
        ⟨(suggestions.get ⟨i, h⟩).id, "highlight"⟩) ∧
    (suggestionDecorations suggestions)[2 * i + 1]? =
      some (Decoration.widget (suggestions.get ⟨i, h⟩).selectionStart
        ⟨(suggestions.get ⟨i, h⟩).id, "widget"⟩) := by
  induction suggestions generalizing i with
  | nil => simp at h
  | cons s rest ih =>
      cases i with
      | zero => simp [suggestionDecorations]
      | succ j =>
          have hj : j < rest.length := by simpa using h
          obtain ⟨h1, h2⟩ := ih j hj
          have e1 : 2 * (j + 1) = 2 * j + 1 + 1 := by omega
          have e2 : 2 * (j + 1) + 1 = 2 * j + 1 + 1 + 1 := by omega
          constructor
          · rw [e1]
            simpa [suggestionDecorations, List.getElem?_cons_succ] using h1
          · rw [e2]
            simpa [suggestionDecorations, List.getElem?_cons_succ] using h2

/-- Claim C1: diffMark's toDOM is determined solely by the mark's type
attribute — a span with class diff-inserted and data-diff inserted for
DiffType.Inserted, a span with class diff-deleted and data-diff deleted
for DiffType.Deleted, and an attribute-free span for every other value,
including the default empty string. -/
theorem diffMark_toDOM_spec :
    (∀ mark : DiffMarkAttrs,
      diffMarkToDOM mark =
        if mark.type = .diff .Inserted then
          ⟨"span", [("class", "diff-inserted"), ("data-diff", "inserted")], 0⟩
        else if mark.type = .diff .Deleted then
          ⟨"span", [("class", "diff-deleted"), ("data-diff", "deleted")], 0⟩
        else
          ⟨"span", [], 0⟩) ∧
    diffMarkToDOM {} = ⟨"span", [], 0⟩ := by
  exact ⟨fun mark => rfl, rfl⟩

/-- Claim C2: createDecorations returns a DecorationSet over the view's
document built from exactly 2n decorations — per suggestion, one inline
decoration spanning selectionStart to selectionEnd with class
suggestion-highlight and the suggestion's id, followed by one widget
decoration anchored at selectionStart with the same id. -/
theorem createDecorations_spec (suggestions : List UISuggestion)
    (view : EditorViewModel) :
    (createDecorations suggestions view).doc = view.doc ∧
    (createDecorations suggestions view).decorations.length =
      2 * suggestions.length ∧
    ∀ i, (h : i < suggestions.length) →
      (createDecorations suggestions view).decorations[2 * i]? =
        some (Decoration.inline (suggestions.get ⟨i, h⟩).selectionStart
          (suggestions.get ⟨i, h⟩).selectionEnd
          [("class", "suggestion-highlight")]
          ⟨(suggestions.get ⟨i, h⟩).id, "highlight"⟩) ∧
      (createDecorations suggestions view).decorations[2 * i + 1]? =
        some (Decoration.widget (suggestions.get ⟨i, h⟩).selectionStart
          ⟨(suggestions.get ⟨i, h⟩).id, "widget"⟩) := by
  have hd : (createDecorations suggestions view).decorations =
      suggestionDecorations suggestions := by
    simpa using createDecorations_foldl_eq suggestions []
  refine ⟨rfl, ?_, ?_⟩
  · rw [hd]; exact suggestionDecorations_length suggestions
  · intro i h
    rw [hd]
    exact suggestionDecorations_getElem suggestions i h

/-- Witness for C2 at a concrete suggestion list and view. -/
theorem createDecorations_spec_witness :
    (createDecorations [⟨"s1", 2, 5⟩] ⟨PMNode.node "doc" []⟩).decorations[0]? =
      some (Decoration.inline 2 5 [("class", "suggestion-highlight")]
        ⟨"s1", "highlight"⟩) ∧
    (createDecorations [⟨"s1", 2, 5⟩] ⟨PMNode.node "doc" []⟩).decorations[1]? =
      some (Decoration.widget 2 ⟨"s1", "widget"⟩) :=
  (createDecorations_spec [⟨"s1", 2, 5⟩] ⟨PMNode.node "doc" []⟩).2.2 0
    (by decide)

/-- Claim C10: computeDiff hands diffEditor the fixed diffSchema together
with the JSON serialisations of the two documents, and is therefore a
function only of those serialisations: documents with equal toJSON images
produce the same diffed document. -/
theorem computeDiff_spec (diffEditorFn : SchemaModel → Json → Json → PMNode)
    (oldDoc newDoc oldDoc2 newDoc2 : PMNode)
    (hOld : oldDoc.toJSON = oldDoc2.toJSON)
    (hNew : newDoc.toJSON = newDoc2.toJSON) :
    computeDiff diffEditorFn oldDoc newDoc =
      diffEditorFn diffSchema oldDoc.toJSON newDoc.toJSON ∧
    computeDiff diffEditorFn oldDoc newDoc =
      computeDiff diffEditorFn oldDoc2 newDoc2 := by
  unfold computeDiff
  rw [hOld, hNew]
  exact ⟨rfl, rfl⟩

/-- Witness for C10 at a concrete diffEditor function and documents. -/
theorem computeDiff_spec_witness :
    computeDiff (fun _ _ _ => PMNode.node "doc" []) (PMNode.text "a" [])
        (PMNode.node "p" []) =
      (fun (_ : SchemaModel) (_ _ : Json) => PMNode.node "doc" []) diffSchema
        (PMNode.text "a" []).toJSON (PMNode.node "p" []).toJSON ∧
    computeDiff (fun _ _ _ => PMNode.node "doc" []) (PMNode.text "a" [])
        (PMNode.node "p" []) =
      computeDiff (fun _ _ _ => PMNode.node "doc" []) (PMNode.text "a" [])
        (PMNode.node "p" []) :=
  computeDiff_spec (fun _ _ _ => PMNode.node "doc" []) (PMNode.text "a" [])
    (PMNode.node "p" []) (PMNode.text "a" []) (PMNode.node "p" []) rfl rfl

theorem msgLE_iff (a b : MessageDeprecated) :
    msgLE a b = true ↔
      (a.createdAt < b.createdAt ∨
        (a.createdAt = b.createdAt ∧ getMessageRank a ≤ getMessageRank b)) := by
  by_cases h : a.createdAt = b.createdAt
  · simp [msgLE, h]
  · simp [msgLE, h]

theorem msgLE_total (a b : MessageDeprecated) :
    (msgLE a b || msgLE b a) = true := by
  rw [Bool.or_eq_true, msgLE_iff, msgLE_iff]
  omega

theorem msgLE_trans (a b c : MessageDeprecated) (hab : msgLE a b = true)
    (hbc : msgLE b c = true) : msgLE a c = true := by
  rw [msgLE_iff] at hab hbc ⊢
  omega

theorem sectionsAux_flatten (msgs : List MessageDeprecated) :
    ∀ cur, (sectionsAux cur msgs).flatten = cur ++ msgs := by
  induction msgs with
  | nil =>
      intro cur
      by_cases h : cur.isEmpty
      · simp_all [sectionsAux, List.isEmpty_iff]
      · simp_all [sectionsAux]
  | cons m rest ih =>
      intro cur
      by_cases h : (m.role == "user" && !cur.isEmpty) = true
      · simp [sectionsAux, h, ih]
      · simp [sectionsAux, h, ih]

theorem sectionsAux_ne_nil (msgs : List MessageDeprecated) :
    ∀ cur s, s ∈ sectionsAux cur msgs → s ≠ [] := by
  induction msgs with
  | nil =>
      intro cur s hs
      by_cases h : cur.isEmpty
      · simp_all [sectionsAux]
      · simp only [sectionsAux] at hs
        rw [if_neg h] at hs
        simp only [List.mem_singleton] at hs
        subst hs
        simpa [List.isEmpty_iff] using h
  | cons m rest ih =>
      intro cur s hs
      by_cases h : (m.role == "user" && !cur.isEmpty) = true
      · rw [sectionsAux, if_pos h] at hs
        simp only [List.mem_cons] at hs
        rcases hs with hs | hs
        · rw [hs]
          have h2 : (!cur.isEmpty) = true := ((Bool.and_eq_true _ _).mp h).2
          intro hnil
          rw [hnil] at h2
          simp at h2
        · exact ih [m] s hs
      · rw [sectionsAux, if_neg h] at hs
        exact ih (cur ++ [m]) s hs

theorem sectionsAux_tail_not_user (msgs : List MessageDeprecated) :
    ∀ cur, (∀ m ∈ cur.tail, m.role ≠ "user") →
      ∀ s ∈ sectionsAux cur msgs, ∀ m ∈ s.tail, m.role ≠ "user" := by
  induction msgs with
  | nil =>
      intro cur hcur s hs
      by_cases h : cur.isEmpty
      · simp_all [sectionsAux]
      · simp only [sectionsAux] at hs
        rw [if_neg h] at hs
        simp only [List.mem_singleton] at hs
        subst hs
        exact hcur
  | cons m rest ih =>
      intro cur hcur s hs
      by_cases h : (m.role == "user" && !cur.isEmpty) = true
      · rw [sectionsAux, if_pos h] at hs
        simp only [List.mem_cons] at hs
        rcases hs with hs | hs
        · subst hs
          exact hcur
        · exact ih [m] (by simp) s hs
      · rw [sectionsAux, if_neg h] at hs
        refine ih (cur ++ [m]) ?_ s hs
        intro x hx
        cases cur with
        | nil => simp at hx
        | cons c0 ctail =>
            simp only [List.cons_append, List.tail_cons, List.mem_append,
              List.mem_singleton] at hx
            rcases hx with hx | hx
            · exact hcur x (by simpa using hx)
            · subst hx
              intro hrole
              apply h
              simp [hrole]

theorem sectionsAux_head0 (msgs : List MessageDeprecated) :
    ∀ cur s, cur ≠ [] → (sectionsAux cur msgs)[0]? = some s →
      s.head? = cur.head? := by
  induction msgs with
  | nil =>
      intro cur s hcur hs
      have h : cur.isEmpty = false := by
        cases cur with
        | nil => exact absurd rfl hcur
        | cons a t => rfl
      rw [sectionsAux] at hs
      rw [h] at hs
      simp at hs
      rw [hs]
  | cons m rest ih =>
      intro cur s hcur hs
      by_cases h : (m.role == "user" && !cur.isEmpty) = true
      · rw [sectionsAux, if_pos h] at hs
        simp at hs
        rw [hs]
      · rw [sectionsAux, if_neg h] at hs
        have h2 := ih (cur ++ [m]) s (by simp) hs
        rw [h2]
        cases cur with
        | nil => exact absurd rfl hcur
        | cons a t => simp

theorem sectionsAux_succ_user (msgs : List MessageDeprecated) :
    ∀ cur i s, (sectionsAux cur msgs)[i + 1]? = some s →
      ∃ m t, s = m :: t ∧ m.role = "user" := by
  induction msgs with
  | nil =>
      intro cur i s hs
      by_cases h : cur.isEmpty
      · rw [sectionsAux, if_pos h] at hs
        simp at hs
      · rw [sectionsAux, if_neg h] at hs
        simp at hs
  | cons m rest ih =>
      intro cur i s hs
      by_cases h : (m.role == "user" && !cur.isEmpty) = true
      · rw [sectionsAux, if_pos h] at hs
        rw [List.getElem?_cons_succ] at hs
        cases i with
        | zero =>
            have hhead := sectionsAux_head0 rest [m] s (by simp) hs
            simp only [List.head?_cons] at hhead
            cases s with
            | nil => simp at hhead
            | cons a t =>
                simp only [List.head?_cons, Option.some_inj] at hhead
                refine ⟨a, t, rfl, ?_⟩
                rw [hhead]
                have := ((Bool.and_eq_true _ _).mp h).1
                simpa [beq_iff_eq] using this
        | succ j => exact ih [m] j s hs
      · rw [sectionsAux, if_neg h] at hs
        exact ih (cur ++ [m]) i s hs

/-- Claim C3: the migration script orders each chat's deprecated messages
by ascending createdAt with ties broken by getMessageRank (assistant
messages with a tool-call part, then tool messages with a tool-result
part, then other assistant messages, then all remaining roles), and splits
the ordered list into nonempty sections that start afresh at every
user-role message encountered after at least one message has accumulated,
emitting any trailing nonempty section. -/
theorem migrateMessages_order_and_sections (messages : List MessageDeprecated) :
    (∀ m : MessageDeprecated,
      getMessageRank m =
        if m.role = "assistant" ∧ ∃ p ∈ m.content, p.type = "tool-call" then 0
        else if m.role = "tool" ∧ ∃ p ∈ m.content, p.type = "tool-result" then 1
        else if m.role = "assistant" then 2
        else 3) ∧
    (sortMessages messages).Perm messages ∧
    (sortMessages messages).Pairwise (fun a b =>
      a.createdAt < b.createdAt ∨
        (a.createdAt = b.createdAt ∧ getMessageRank a ≤ getMessageRank b)) ∧
    (migrateChatSections messages).flatten = sortMessages messages ∧
    (∀ s ∈ migrateChatSections messages, s ≠ []) ∧
    (∀ s ∈ migrateChatSections messages, ∀ m ∈ s.tail, m.role ≠ "user") ∧
    (∀ i s, (migrateChatSections messages)[i + 1]? = some s →
      ∃ m t, s = m :: t ∧ m.role = "user") := by
  refine ⟨?_, ?_, ?_, ?_, ?_, ?_, ?_⟩
  · intro m
    simp only [getMessageRank]
    split_ifs with h1 h2 h3 h4 h5 h6 h7 <;>
      simp_all [List.any_eq_true, Bool.and_eq_true, beq_iff_eq]
  · simpa [sortMessages] using List.mergeSort_perm messages msgLE
  · have hsorted :=
      List.sorted_mergeSort (fun a b c => msgLE_trans a b c) msgLE_total messages
    exact (List.Pairwise.imp (fun h => (msgLE_iff _ _).1 h))
      (by simpa [sortMessages] using hsorted)
  · simpa [migrateChatSections, buildSections] using
      sectionsAux_flatten (sortMessages messages) []
  · intro s hs
    exact sectionsAux_ne_nil (sortMessages messages) [] s hs
  · intro s hs
    exact sectionsAux_tail_not_user (sortMessages messages) [] (by simp) s hs
  · intro i s hs
    exact sectionsAux_succ_user (sortMessages messages) [] i s hs

/-- Witness for C3 at a concrete chat history: the second section of the
migrated pipeline starts with a user message. -/
theorem migrateMessages_order_and_sections_witness :
    ∃ m t, ([⟨"3", "c", "user", [], 3⟩] : List MessageDeprecated) = m :: t ∧
      m.role = "user" :=
  (migrateMessages_order_and_sections
      [⟨"1", "c", "user", [], 1⟩, ⟨"2", "c", "assistant", [], 2⟩,
        ⟨"3", "c", "user", [], 3⟩]).2.2.2.2.2.2 0
    [⟨"3", "c", "user", [], 3⟩]
    (by
      have hsorted : sortMessages
          [⟨"1", "c", "user", [], 1⟩, ⟨"2", "c", "assistant", [], 2⟩,
            ⟨"3", "c", "user", [], 3⟩] =
          [⟨"1", "c", "user", [], 1⟩, ⟨"2", "c", "assistant", [], 2⟩,
            ⟨"3", "c", "user", [], 3⟩] := by
        apply List.mergeSort_of_sorted
        decide
      simp only [migrateChatSections, buildSections, hsorted]
      decide)

theorem votes_filter_key_length_one (votes : List VoteRow)
    (cId mId uId : String)
    (huniq : votes.Pairwise (fun a b =>
      ¬(a.chatId = b.chatId ∧ a.messageId = b.messageId ∧ a.userId = b.userId)))
    (v : VoteRow) (hv : v ∈ votes)
    (hp : v.chatId = cId ∧ v.messageId = mId ∧ v.userId = uId) :
    (votes.filter (fun w =>
      w.chatId == cId && w.messageId == mId && w.userId == uId)).length = 1 := by
  induction votes with
  | nil => simp at hv
  | cons x t ih =>
      rcases List.pairwise_cons.mp huniq with ⟨hx, ht⟩
      by_cases hpx : (x.chatId == cId && x.messageId == mId && x.userId == uId) = true
      · have hkeyx : x.chatId = cId ∧ x.messageId = mId ∧ x.userId = uId := by
          simpa [Bool.and_eq_true, beq_iff_eq, and_assoc] using hpx
        have hnone : t.filter (fun w =>
            w.chatId == cId && w.messageId == mId && w.userId == uId) = [] := by
          rw [List.filter_eq_nil_iff]
          intro w hw
          have hkey := hx w hw
          simp only [Bool.and_eq_true, beq_iff_eq, not_and]
          intro h1 h2
          exact hkey ⟨hkeyx.1.trans h1.1.symm, hkeyx.2.1.trans h1.2.symm,
            hkeyx.2.2.trans h2.symm⟩
        rw [List.filter_cons, if_pos hpx, hnone]
        rfl
      · have hvt : v ∈ t := by
          rcases List.mem_cons.mp hv with h | h
          · rw [h] at hp
            exact absurd (by
              simp [Bool.and_eq_true, beq_iff_eq, hp.1, hp.2.1, hp.2.2]) hpx
          · exact h
        rw [List.filter_cons, if_neg hpx]
        exact ih ht hvt

/-- Claim C4: under the composite primary key (chatId, messageId, userId)
of the Vote table, a successful voteMessage leaves exactly one vote row
for the voted triple, whose isUpvoted equals (type = up): it updates the
existing row when one exists and inserts a fresh row otherwise. -/
theorem voteMessage_unique (db : DB) (chatId messageId userId ty : String)
    (huniq : db.votes.Pairwise (fun a b =>
      ¬(a.chatId = b.chatId ∧ a.messageId = b.messageId ∧ a.userId = b.userId))) :
    ∃ db2, voteMessage db chatId messageId userId ty none none = .ok db2 ∧
      (db2.votes.filter (fun v =>
        v.chatId == chatId && v.messageId == messageId &&
          v.userId == userId)).length = 1 ∧
      ∀ v ∈ db2.votes, v.chatId = chatId → v.messageId = messageId →
        v.userId = userId → v.isUpvoted = (ty == "up") := by
  cases hfind : db.votes.find? (fun v =>
      v.chatId == chatId && v.messageId == messageId && v.userId == userId) with
  | some v0 =>
      refine ⟨{ db with votes := db.votes.map (fun v =>
        if v.chatId == chatId && v.messageId == messageId &&
            v.userId == userId then
          { v with isUpvoted := ty == "up" }
        else v) }, ?_, ?_, ?_⟩
      · unfold voteMessage
        rw [(by rw [hfind] : dbOp none (db.votes.find? (fun v =>
            v.chatId == chatId && v.messageId == messageId &&
              v.userId == userId)) = dbOp none (some v0))]
        rfl
      · rw [List.filter_map, List.length_map]
        have hcongr : db.votes.filter ((fun v =>
            v.chatId == chatId && v.messageId == messageId &&
              v.userId == userId) ∘ (fun v =>
                if v.chatId == chatId && v.messageId == messageId &&
                    v.userId == userId then
                  { v with isUpvoted := ty == "up" }
                else v)) = db.votes.filter (fun v =>
            v.chatId == chatId && v.messageId == messageId &&
              v.userId == userId) := by
          apply List.filter_congr
          intro w _
          by_cases hw : (w.chatId == chatId && w.messageId == messageId &&
              w.userId == userId) = true
          · simp only [Function.comp_apply, if_pos hw]
          · simp only [Function.comp_apply, if_neg hw]
        rw [hcongr]
        exact votes_filter_key_length_one db.votes chatId messageId userId huniq
          v0 (List.mem_of_find?_eq_some hfind)
          (by simpa [Bool.and_eq_true, beq_iff_eq, and_assoc] using
            List.find?_some hfind)
      · intro v hvmem h1 h2 h3
        rcases List.mem_map.mp hvmem with ⟨w, hw, hweq⟩
        by_cases hwp : (w.chatId == chatId && w.messageId == messageId &&
            w.userId == userId) = true
        · rw [if_pos hwp] at hweq
          rw [← hweq]
        · rw [if_neg hwp] at hweq
          subst hweq
          exact absurd (by simp [Bool.and_eq_true, beq_iff_eq, h1, h2, h3]) hwp
  | none =>
      refine ⟨{ db with votes :=
        db.votes ++ [⟨chatId, messageId, userId, ty == "up"⟩] }, ?_, ?_, ?_⟩
      · unfold voteMessage
        rw [(by rw [hfind] : dbOp none (db.votes.find? (fun v =>
            v.chatId == chatId && v.messageId == messageId &&
              v.userId == userId)) =
          dbOp (α := Option VoteRow) none none)]
        rfl
      · rw [List.filter_append]
        have h1 : db.votes.filter (fun v =>
            v.chatId == chatId && v.messageId == messageId &&
              v.userId == userId) = [] := by
          rw [List.filter_eq_nil_iff]
          intro w hw
          have := List.find?_eq_none.mp hfind w hw
          simpa using this
        rw [h1]
        simp
      · intro v hvmem h1 h2 h3
        rcases List.mem_append.mp hvmem with hv | hv
        · exact absurd (List.find?_eq_none.mp hfind v hv)
            (by simp [Bool.and_eq_true, beq_iff_eq, h1, h2, h3])
        · simp only [List.mem_singleton] at hv
          rw [hv]

/-- Witness for C4 at a concrete database state. -/
theorem voteMessage_unique_witness :
    ∃ db2, voteMessage ⟨[], [], [], [], [], [], []⟩ "c" "m" "u" "up" none none =
        .ok db2 ∧
      (db2.votes.filter (fun v =>
        v.chatId == "c" && v.messageId == "m" && v.userId == "u")).length = 1 ∧
      ∀ v ∈ db2.votes, v.chatId = "c" → v.messageId = "m" → v.userId = "u" →
        v.isUpvoted = ("up" == "up") :=
  voteMessage_unique ⟨[], [], [], [], [], [], []⟩ "c" "m" "u" "up" (by simp)

theorem dbOp_none {α : Type} (x : α) : dbOp none x = Except.ok x := rfl

theorem bind_ok {α β : Type} (a : α) (k : α → Except QueryError β) :
    (do
      let x ← Except.ok a
      k x) = k a := rfl

theorem tryCatchAll_run_ok {α : Type} (a : α)
    (h : QueryError → Except QueryError α) :
    tryCatchAll (Except.ok a) h = Except.ok a := rfl

theorem tryCatchAll_run_error {α : Type} (e : QueryError)
    (h : QueryError → Except QueryError α) :
    tryCatchAll (Except.error e) h = h e := rfl

/-- Claim C5: with no cursor, getChatsByUserId fetches the user's chats
newest first truncated to limit+1, returns at most limit of them, and its
hasMore flag is true exactly when more than limit chats matched, the
extra (limit+1)-th fetched chat being dropped in that case. -/
theorem getChatsByUserId_pagination (db : DB) (id : String) (limit : Nat)
    (_hpos : 0 < limit) :
    ∃ p : ChatsPage,
      getChatsByUserId db id limit none none none none = .ok p ∧
      p.chats.length ≤ limit ∧
      (p.hasMore = true ↔
        limit < ((db.chats.filter (fun c => c.userId == id)).mergeSort
          chatDescLE).length) ∧
      (limit < ((db.chats.filter (fun c => c.userId == id)).mergeSort
          chatDescLE).length →
        p.chats = ((db.chats.filter (fun c => c.userId == id)).mergeSort
          chatDescLE).take limit) := by
  have hfilter : db.chats.filter (fun c => c.userId == id && true) =
      db.chats.filter (fun c => c.userId == id) := by
    apply List.filter_congr
    intro x _
    exact Bool.and_true _
  have hq : queryChats db id (limit + 1) (fun _ => true) =
      ((db.chats.filter (fun c => c.userId == id)).mergeSort
        chatDescLE).take (limit + 1) := by
    unfold queryChats
    rw [hfilter]
  refine ⟨⟨if limit < (queryChats db id (limit + 1) (fun _ => true)).length then
      (queryChats db id (limit + 1) (fun _ => true)).take limit
    else queryChats db id (limit + 1) (fun _ => true),
    decide (limit < (queryChats db id (limit + 1) (fun _ => true)).length)⟩,
    rfl, ?_, ?_, ?_⟩
  · dsimp only
    by_cases h : limit < (queryChats db id (limit + 1) (fun _ => true)).length
    · rw [if_pos h]
      simp only [List.length_take]
      omega
    · rw [if_neg h]
      omega
  · dsimp only
    rw [hq]
    simp only [decide_eq_true_eq, List.length_take]
    omega
  · intro hmore
    dsimp only
    have h : limit < (queryChats db id (limit + 1) (fun _ => true)).length := by
      rw [hq]
      simp only [List.length_take]
      omega
    rw [if_pos h, hq, List.take_take]
    have hmin : min limit (limit + 1) = limit := by omega
    rw [hmin]

/-- Witness for C5 at a concrete database state and limit. -/
theorem getChatsByUserId_pagination_witness :
    ∃ p : ChatsPage,
      getChatsByUserId ⟨[], [], [], [], [], [], []⟩ "u" 1 none none none none =
        .ok p ∧
      p.chats.length ≤ 1 ∧
      (p.hasMore = true ↔
        1 < ((List.filter (fun c => c.userId == "u")
          (⟨[], [], [], [], [], [], []⟩ : DB).chats).mergeSort
          chatDescLE).length) ∧
      (1 < ((List.filter (fun c => c.userId == "u")
          (⟨[], [], [], [], [], [], []⟩ : DB).chats).mergeSort
          chatDescLE).length →
        p.chats = ((List.filter (fun c => c.userId == "u")
          (⟨[], [], [], [], [], [], []⟩ : DB).chats).mergeSort
          chatDescLE).take 1) :=
  getChatsByUserId_pagination ⟨[], [], [], [], [], [], []⟩ "u" 1 (by decide)

/-- Claim C7: when the startingAfter (or endingBefore) cursor chat does
not exist, the not-found ChatSDKError thrown inside getChatsByUserId's try
block is caught by its own generic catch, so the caller receives the
bad_request:database ChatSDKError with message Failed to get chats by user
id instead. -/
theorem getChatsByUserId_cursor_missing (db : DB) (id : String) (limit : Nat)
    (cursor : String) (errQuery : Option DbError)
    (hfind : db.chats.find? (fun c => c.id == cursor) = none) :
    (∀ endingBefore,
      getChatsByUserId db id limit (some cursor) endingBefore none errQuery =
        .error (.sdk ⟨"bad_request:database",
          "Failed to get chats by user id"⟩)) ∧
    getChatsByUserId db id limit none (some cursor) none errQuery =
      .error (.sdk ⟨"bad_request:database",
        "Failed to get chats by user id"⟩) := by
  constructor
  · intro endingBefore
    unfold getChatsByUserId
    dsimp only
    rw [(by rw [hfind] : dbOp none (db.chats.find? (fun c => c.id == cursor)) =
      dbOp (α := Option ChatRow) none none)]
    rfl
  · unfold getChatsByUserId
    dsimp only
    rw [(by rw [hfind] : dbOp none (db.chats.find? (fun c => c.id == cursor)) =
      dbOp (α := Option ChatRow) none none)]
    rfl

/-- Witness for C7 at a concrete database state. -/
theorem getChatsByUserId_cursor_missing_witness :
    getChatsByUserId ⟨[], [], [], [], [], [], []⟩ "u" 2 (some "x") none
        none none =
      .error (.sdk ⟨"bad_request:database",
        "Failed to get chats by user id"⟩) :=
  (getChatsByUserId_cursor_missing ⟨[], [], [], [], [], [], []⟩ "u" 2 "x"
    none rfl).1 none

theorem messageRow_eq_of_id_eq (l : List MessageRow)
    (hids : l.Pairwise (fun a b => a.id ≠ b.id)) (a b : MessageRow)
    (ha : a ∈ l) (hb : b ∈ l) (hid : a.id = b.id) : a = b := by
  induction l with
  | nil => simp at ha
  | cons x t ih =>
      rcases List.pairwise_cons.mp hids with ⟨hx, ht⟩
      rcases List.mem_cons.mp ha with ha1 | ha1 <;>
        rcases List.mem_cons.mp hb with hb1 | hb1
      · rw [ha1, hb1]
      · rw [ha1] at hid
        exact absurd hid (hx b hb1)
      · rw [hb1] at hid
        exact absurd hid.symm (hx a ha1)
      · exact ih ht ha1 hb1

theorem delete_filter_key_congr (db : DB) (chatId : String) (timestamp : Nat)
    (hids : db.messages.Pairwise (fun a b => a.id ≠ b.id)) :
    ∀ m ∈ db.messages,
      (m.chatId == chatId &&
        ((db.messages.filter (fun m2 => m2.chatId == chatId &&
          timestamp ≤ m2.createdAt)).map (fun m2 => m2.id)).contains m.id) =
      (m.chatId == chatId && timestamp ≤ m.createdAt) := by
  intro m hm
  by_cases hc : ((db.messages.filter (fun m2 => m2.chatId == chatId &&
      timestamp ≤ m2.createdAt)).map (fun m2 => m2.id)).contains m.id = true
  · have hmem : m.id ∈ (db.messages.filter (fun m2 => m2.chatId == chatId &&
        timestamp ≤ m2.createdAt)).map (fun m2 => m2.id) :=
      List.elem_iff.mp hc
    rcases List.mem_map.mp hmem with ⟨m2, hm2, hm2id⟩
    rcases List.mem_filter.mp hm2 with ⟨hm2mem, hm2p⟩
    have heq : m2 = m :=
      messageRow_eq_of_id_eq db.messages hids m2 m hm2mem hm hm2id
    rw [heq] at hm2p
    rw [hc, hm2p]
    have hchat := ((Bool.and_eq_true _ _).mp hm2p).1
    simp [hchat]
  · have hcf : ((db.messages.filter (fun m2 => m2.chatId == chatId &&
        timestamp ≤ m2.createdAt)).map (fun m2 => m2.id)).contains m.id =
        false := by
      simpa using hc
    rw [hcf]
    by_cases hp : (m.chatId == chatId && timestamp ≤ m.createdAt) = true
    · exact absurd (List.elem_iff.mpr (List.mem_map.mpr
        ⟨m, List.mem_filter.mpr ⟨hm, hp⟩, rfl⟩)) hc
    · rw [Bool.eq_false_iff.mpr hp]
      simp

/-- Claim C9: deleteMessagesByChatIdAfterTimestamp deletes exactly the
chat's messages with createdAt at or after the timestamp (gte, despite the
name saying after), deleting the chat's votes that reference those
messages; when nothing matches it changes nothing and resolves with
undefined rather than a deletion count. -/
theorem deleteMessagesByChatIdAfterTimestamp_spec (db : DB) (chatId : String)
    (timestamp : Nat)
    (hids : db.messages.Pairwise (fun a b => a.id ≠ b.id)) :
    ∃ db2 res,
      deleteMessagesByChatIdAfterTimestamp db chatId timestamp none none none =
        .ok (db2, res) ∧
      db2.messages = db.messages.filter (fun m =>
        !(m.chatId == chatId && timestamp ≤ m.createdAt)) ∧
      db2.votes = db.votes.filter (fun v =>
        !(v.chatId == chatId &&
          ((db.messages.filter (fun m => m.chatId == chatId &&
            timestamp ≤ m.createdAt)).map (fun m => m.id)).contains
            v.messageId)) ∧
      (db.messages.filter (fun m => m.chatId == chatId &&
          timestamp ≤ m.createdAt) = [] → db2 = db ∧ res = none) ∧
      (db.messages.filter (fun m => m.chatId == chatId &&
          timestamp ≤ m.createdAt) ≠ [] →
        res = some (db.messages.filter (fun m => m.chatId == chatId &&
          timestamp ≤ m.createdAt)).length) := by
  by_cases hM : db.messages.filter (fun m => m.chatId == chatId &&
      timestamp ≤ m.createdAt) = []
  · have hrun : deleteMessagesByChatIdAfterTimestamp db chatId timestamp
        none none none = .ok (db, none) := by
      unfold deleteMessagesByChatIdAfterTimestamp
      dsimp only
      rw [(by rw [hM] : dbOp none (db.messages.filter (fun m =>
        m.chatId == chatId && timestamp ≤ m.createdAt)) =
        dbOp (α := List MessageRow) none [])]
      rfl
    refine ⟨db, none, hrun, ?_, ?_, fun _ => ⟨rfl, rfl⟩, fun h => absurd hM h⟩
    · have hall : ∀ m ∈ db.messages,
          (!(m.chatId == chatId && timestamp ≤ m.createdAt)) = true := by
        intro m hm
        have h2 : (m.chatId == chatId && timestamp ≤ m.createdAt) = false :=
          Bool.eq_false_iff.mpr (List.filter_eq_nil_iff.mp hM m hm)
        rw [h2]
        rfl
      exact (List.filter_eq_self.mpr hall).symm
    · rw [hM]
      simp
  · have hlen : 0 < ((db.messages.filter (fun m => m.chatId == chatId &&
        timestamp ≤ m.createdAt)).map (fun m => m.id)).length := by
      rw [List.length_map]
      exact List.length_pos.mpr hM
    refine ⟨{ db with
      votes := db.votes.filter (fun v =>
        !(v.chatId == chatId &&
          ((db.messages.filter (fun m => m.chatId == chatId &&
            timestamp ≤ m.createdAt)).map (fun m => m.id)).contains
            v.messageId)),
      messages := db.messages.filter (fun m =>
        !(m.chatId == chatId &&
          ((db.messages.filter (fun m2 => m2.chatId == chatId &&
            timestamp ≤ m2.createdAt)).map (fun m2 => m2.id)).contains
            m.id)) },
      some ((db.messages.filter (fun m =>
        m.chatId == chatId &&
          ((db.messages.filter (fun m2 => m2.chatId == chatId &&
            timestamp ≤ m2.createdAt)).map (fun m2 => m2.id)).contains
            m.id)).length),
      ?_, ?_, rfl, fun h => absurd h hM, ?_⟩
    · unfold deleteMessagesByChatIdAfterTimestamp
      dsimp only
      simp only [dbOp_none, bind_ok]
      rw [if_pos hlen]
      simp only [dbOp_none, bind_ok, tryCatchAll_run_ok]
    · apply List.filter_congr
      intro m hm
      rw [delete_filter_key_congr db chatId timestamp hids m hm]
    · intro _
      have hcnt : db.messages.filter (fun m =>
          m.chatId == chatId &&
            ((db.messages.filter (fun m2 => m2.chatId == chatId &&
              timestamp ≤ m2.createdAt)).map (fun m2 => m2.id)).contains
              m.id) = db.messages.filter (fun m => m.chatId == chatId &&
                timestamp ≤ m.createdAt) := by
        apply List.filter_congr
        intro m hm
        exact delete_filter_key_congr db chatId timestamp hids m hm
      rw [hcnt]

/-- Witness for C9 at a concrete database state (one matching message with
a vote on it). -/
theorem deleteMessagesByChatIdAfterTimestamp_spec_witness :
    ∃ db2 res,
      deleteMessagesByChatIdAfterTimestamp
          ⟨[], [], [⟨"m1", "c", "user", 5⟩], [⟨"c", "m1", "u", true⟩],
            [], [], []⟩ "c" 3 none none none = .ok (db2, res) ∧
      db2.messages = [(⟨"m1", "c", "user", 5⟩ : MessageRow)].filter (fun m =>
        !(m.chatId == "c" && 3 ≤ m.createdAt)) ∧
      db2.votes = [(⟨"c", "m1", "u", true⟩ : VoteRow)].filter (fun v =>
        !(v.chatId == "c" &&
          (([(⟨"m1", "c", "user", 5⟩ : MessageRow)].filter (fun m =>
            m.chatId == "c" && 3 ≤ m.createdAt)).map (fun m => m.id)).contains
            v.messageId)) ∧
      ([(⟨"m1", "c", "user", 5⟩ : MessageRow)].filter (fun m =>
          m.chatId == "c" && 3 ≤ m.createdAt) = [] →
        db2 = ⟨[], [], [⟨"m1", "c", "user", 5⟩], [⟨"c", "m1", "u", true⟩],
          [], [], []⟩ ∧ res = none) ∧
      ([(⟨"m1", "c", "user", 5⟩ : MessageRow)].filter (fun m =>
          m.chatId == "c" && 3 ≤ m.createdAt) ≠ [] →
        res = some ([(⟨"m1", "c", "user", 5⟩ : MessageRow)].filter (fun m =>
          m.chatId == "c" && 3 ≤ m.createdAt)).length) :=
  deleteMessagesByChatIdAfterTimestamp_spec
    ⟨[], [], [⟨"m1", "c", "user", 5⟩], [⟨"c", "m1", "u", true⟩], [], [], []⟩
    "c" 3 (by simp)

/-- Claim C8: the document-versions GET route checks, in order: missing
documentId gives bad_request:api, missing session gives
unauthorized:document, unknown document gives not_found:document, foreign
document gives forbidden:document, and otherwise responds 200 with the
stored versions followed by the current document as the final element. -/
theorem handleGetDocumentVersions_spec (db : DB) (versions : List VersionRow) :
    (∀ sessionUserId?, handleGetDocumentVersions none sessionUserId? db
      versions = .errorResponse "bad_request:api") ∧
    (∀ documentId, handleGetDocumentVersions (some documentId) none db
      versions = .errorResponse "unauthorized:document") ∧
    (∀ documentId sessionUserId, findDocumentById db documentId = none →
      handleGetDocumentVersions (some documentId) (some sessionUserId) db
        versions = .errorResponse "not_found:document") ∧
    (∀ documentId sessionUserId document,
      findDocumentById db documentId = some document →
      document.userId ≠ sessionUserId →
      handleGetDocumentVersions (some documentId) (some sessionUserId) db
        versions = .errorResponse "forbidden:document") ∧
    (∀ documentId sessionUserId document,
      findDocumentById db documentId = some document →
      document.userId = sessionUserId →
      handleGetDocumentVersions (some documentId) (some sessionUserId) db
        versions =
        .json ((getDocumentVersions versions documentId).map
          (fun v => .version (projectVersion document v)) ++
          [.currentDoc document]) 200) := by
  refine ⟨fun s => rfl, fun d => rfl, ?_, ?_, ?_⟩
  · intro documentId sessionUserId hfind
    unfold handleGetDocumentVersions
    dsimp only
    rw [hfind]
  · intro documentId sessionUserId document hfind hne
    unfold handleGetDocumentVersions
    dsimp only
    rw [hfind]
    dsimp only
    rw [if_pos (bne_iff_ne.mpr hne)]
  · intro documentId sessionUserId document hfind heq
    unfold handleGetDocumentVersions
    dsimp only
    rw [hfind]
    dsimp only
    rw [if_neg (by simp [heq])]

/-- Witness for C8 at a concrete request, session and database: the owner
of the only document receives the 200 response. -/
theorem handleGetDocumentVersions_spec_witness :
    handleGetDocumentVersions (some "d") (some "u")
        ⟨[], [], [], [], [⟨"d", "t", "text", "hello", "u", 1⟩], [], []⟩
        [⟨"d", "t2", some "v1", "u", 1, 2⟩] =
      .json ((getDocumentVersions [⟨"d", "t2", some "v1", "u", 1, 2⟩] "d").map
        (fun v => .version
          (projectVersion ⟨"d", "t", "text", "hello", "u", 1⟩ v)) ++
        [.currentDoc ⟨"d", "t", "text", "hello", "u", 1⟩]) 200 :=
  (handleGetDocumentVersions_spec
      ⟨[], [], [], [], [⟨"d", "t", "text", "hello", "u", 1⟩], [], []⟩
      [⟨"d", "t2", some "v1", "u", 1, 2⟩]).2.2.2.2 "d" "u"
    ⟨"d", "t", "text", "hello", "u", 1⟩
    (by
      unfold findDocumentById
      rw [List.mergeSort_of_sorted (by decide)]
      rfl)
    rfl

theorem tryCatchAll_ok_or_sdk {α : Type} (body : Except QueryError α)
    (c : ChatSDKError) :
    (tryCatchAll body (fun _ => .error (.sdk c))).isOk = true ∨
    tryCatchAll body (fun _ => .error (.sdk c)) = .error (.sdk c) := by
  cases body with
  | ok a => exact Or.inl rfl
  | error e => exact Or.inr rfl

/-- Claim C6: every exported function of the database query module wraps
its body in try/catch and throws a ChatSDKError in place of whatever the
underlying database operation threw; each call either succeeds or yields
that function's bad_request:database ChatSDKError, so a raw database error
never reaches the caller. -/
theorem queries_wrap_errors :
    (∀ db email err, (getUser db email err).isOk = true ∨
      getUser db email err = .error (.sdk ⟨"bad_request:database",
        "Failed to get user by email"⟩)) ∧
    (∀ db userId username email hp err,
      (createUser db userId username email hp err).isOk = true ∨
      createUser db userId username email hp err =
        .error (.sdk ⟨"bad_request:database", "Failed to create user"⟩)) ∧
    (∀ db userId username email hp err,
      (createGuestUser db userId username email hp err).isOk = true ∨
      createGuestUser db userId username email hp err =
        .error (.sdk ⟨"bad_request:database", "Failed to create guest user"⟩)) ∧
    (∀ db id userId title visibility now err,
      (saveChat db id userId title visibility now err).isOk = true ∨
      saveChat db id userId title visibility now err =
        .error (.sdk ⟨"bad_request:database", "Failed to save chat"⟩)) ∧
    (∀ db id err1 err2 err3 err4,
      (deleteChatById db id err1 err2 err3 err4).isOk = true ∨
      deleteChatById db id err1 err2 err3 err4 =
        .error (.sdk ⟨"bad_request:database", "Failed to delete chat by id"⟩)) ∧
    (∀ db id limit startingAfter endingBefore errFind errQuery,
      (getChatsByUserId db id limit startingAfter endingBefore errFind
        errQuery).isOk = true ∨
      getChatsByUserId db id limit startingAfter endingBefore errFind
        errQuery = .error (.sdk ⟨"bad_request:database",
          "Failed to get chats by user id"⟩)) ∧
    (∀ db id err, (getChatById db id err).isOk = true ∨
      getChatById db id err =
        .error (.sdk ⟨"bad_request:database", "Failed to get chat by id"⟩)) ∧
    (∀ db msgs err, (saveMessages db msgs err).isOk = true ∨
      saveMessages db msgs err =
        .error (.sdk ⟨"bad_request:database", "Failed to save messages"⟩)) ∧
    (∀ db id err, (getMessagesByChatId db id err).isOk = true ∨
      getMessagesByChatId db id err =
        .error (.sdk ⟨"bad_request:database",
          "Failed to get messages by chat id"⟩)) ∧
    (∀ db chatId messageId userId ty errFind errWrite,
      (voteMessage db chatId messageId userId ty errFind errWrite).isOk =
        true ∨
      voteMessage db chatId messageId userId ty errFind errWrite =
        .error (.sdk ⟨"bad_request:database", "Failed to vote message"⟩)) ∧
    (∀ db id err, (getVotesByChatId db id err).isOk = true ∨
      getVotesByChatId db id err =
        .error (.sdk ⟨"bad_request:database",
          "Failed to get votes by chat id"⟩)) ∧
    (∀ db id title kind content userId now err,
      (saveDocument db id title kind content userId now err).isOk = true ∨
      saveDocument db id title kind content userId now err =
        .error (.sdk ⟨"bad_request:database", "Failed to save document"⟩)) ∧
    (∀ db id err, (getDocumentsById db id err).isOk = true ∨
      getDocumentsById db id err =
        .error (.sdk ⟨"bad_request:database",
          "Failed to get documents by id"⟩)) ∧
    (∀ db id err, (getDocumentById db id err).isOk = true ∨
      getDocumentById db id err =
        .error (.sdk ⟨"bad_request:database",
          "Failed to get document by id"⟩)) ∧
    (∀ db id ts err1 err2 err3,
      (deleteDocumentsByIdAfterTimestamp db id ts err1 err2 err3).isOk =
        true ∨
      deleteDocumentsByIdAfterTimestamp db id ts err1 err2 err3 =
        .error (.sdk ⟨"bad_request:database",
          "Failed to delete documents by id after timestamp"⟩)) ∧
    (∀ db suggs err, (saveSuggestions db suggs err).isOk = true ∨
      saveSuggestions db suggs err =
        .error (.sdk ⟨"bad_request:database",
          "Failed to save suggestions"⟩)) ∧
    (∀ db documentId err,
      (getSuggestionsByDocumentId db documentId err).isOk = true ∨
      getSuggestionsByDocumentId db documentId err =
        .error (.sdk ⟨"bad_request:database",
          "Failed to get suggestions by document id"⟩)) ∧
    (∀ db id err, (getMessageById db id err).isOk = true ∨
      getMessageById db id err =
        .error (.sdk ⟨"bad_request:database",
          "Failed to get message by id"⟩)) ∧
    (∀ db chatId ts err1 err2 err3,
      (deleteMessagesByChatIdAfterTimestamp db chatId ts err1 err2
        err3).isOk = true ∨
      deleteMessagesByChatIdAfterTimestamp db chatId ts err1 err2 err3 =
        .error (.sdk ⟨"bad_request:database",
          "Failed to delete messages by chat id after timestamp"⟩)) ∧
    (∀ db chatId visibility err,
      (updateChatVisiblityById db chatId visibility err).isOk = true ∨
      updateChatVisiblityById db chatId visibility err =
        .error (.sdk ⟨"bad_request:database",
          "Failed to update chat visibility by id"⟩)) ∧
    (∀ db id hours now err,
      (getMessageCountByUserId db id hours now err).isOk = true ∨
      getMessageCountByUserId db id hours now err =
        .error (.sdk ⟨"bad_request:database",
          "Failed to get message count by user id"⟩)) ∧
    (∀ db streamId chatId now err,
      (createStreamId db streamId chatId now err).isOk = true ∨
      createStreamId db streamId chatId now err =
        .error (.sdk ⟨"bad_request:database",
          "Failed to create stream id"⟩)) ∧
    (∀ db chatId err, (getStreamIdsByChatId db chatId err).isOk = true ∨
      getStreamIdsByChatId db chatId err =
        .error (.sdk ⟨"bad_request:database",
          "Failed to get stream ids by chat id"⟩)) :=
  ⟨fun _ _ _ => tryCatchAll_ok_or_sdk _ _,
    fun _ _ _ _ _ _ => tryCatchAll_ok_or_sdk _ _,
    fun _ _ _ _ _ _ => tryCatchAll_ok_or_sdk _ _,
    fun _ _ _ _ _ _ _ => tryCatchAll_ok_or_sdk _ _,
    fun _ _ _ _ _ _ => tryCatchAll_ok_or_sdk _ _,
    fun _ _ _ _ _ _ _ => tryCatchAll_ok_or_sdk _ _,
    fun _ _ _ => tryCatchAll_ok_or_sdk _ _,
    fun _ _ _ => tryCatchAll_ok_or_sdk _ _,
    fun _ _ _ => tryCatchAll_ok_or_sdk _ _,
    fun _ _ _ _ _ _ _ => tryCatchAll_ok_or_sdk _ _,
    fun _ _ _ => tryCatchAll_ok_or_sdk _ _,
    fun _ _ _ _ _ _ _ _ => tryCatchAll_ok_or_sdk _ _,
    fun _ _ _ => tryCatchAll_ok_or_sdk _ _,
    fun _ _ _ => tryCatchAll_ok_or_sdk _ _,
    fun _ _ _ _ _ _ => tryCatchAll_ok_or_sdk _ _,
    fun _ _ _ => tryCatchAll_ok_or_sdk _ _,
    fun _ _ _ => tryCatchAll_ok_or_sdk _ _,
    fun _ _ _ => tryCatchAll_ok_or_sdk _ _,
    fun _ _ _ _ _ _ => tryCatchAll_ok_or_sdk _ _,
    fun _ _ _ _ => tryCatchAll_ok_or_sdk _ _,
    fun _ _ _ _ _ => tryCatchAll_ok_or_sdk _ _,
    fun _ _ _ _ _ => tryCatchAll_ok_or_sdk _ _,
    fun _ _ _ => tryCatchAll_ok_or_sdk _ _⟩
